import Mathlib

/-!
Verification of the document normalization and multi-backend dispatch
pipeline of the Siamese AI Reader application (source: `src/App.tsx`).

Modeling conventions:
* browser strings are `List Char` (reply texts, base64 payloads) or `String`
  (MIME types, file names, prompts);
* byte buffers are `List Nat` with every entry `< 256`;
* the host primitives (`JSON.parse`, base64 encoding done by
  `FileReader.readAsDataURL`, pdf.js page access, canvas encoding) are
  modeled explicitly below; pdf.js rendering and canvas JPEG encoding are
  abstract functions of a `BrowserEnv`;
* JavaScript exceptions are modeled with `Except`.
-/

/-- The backquote character used by Markdown code fences. -/
def bq : Char := Char.ofNat 96

/-- The left curly brace character. -/
def lbrace : Char := Char.ofNat 123

/-- The right curly brace character. -/
def rbrace : Char := Char.ofNat 125

/-- JSON values as produced by the host `JSON.parse` primitive.  Numeric
literals are modeled as integers, which covers every numeric field of the
application's grading schema. -/
inductive JsonVal where
  | null : JsonVal
  | bool : Bool → JsonVal
  | num : Int → JsonVal
  | str : List Char → JsonVal
  | arr : List JsonVal → JsonVal
  | obj : List (List Char × JsonVal) → JsonVal

/-- JSON whitespace characters (space, tab, line feed, carriage return). -/
def isJsonWs (c : Char) : Bool :=
  c == ' ' || c == '\t' || c == '\n' || c == '\r'

/-- Drop leading JSON whitespace. -/
def skipWs (s : List Char) : List Char := s.dropWhile isJsonWs

/-- Translate a JSON string escape character to the character it denotes. -/
def unescapeChar (c : Char) : Char :=
  if c = 'n' then '\n'
  else if c = 't' then '\t'
  else if c = 'r' then '\r'
  else if c = 'b' then Char.ofNat 8
  else if c = 'f' then Char.ofNat 12
  else c

/-- Parse the body of a JSON string literal (after the opening quote) up to
the closing quote, handling backslash escapes.  Returns the decoded
characters and the remaining input. -/
def parseStringBody : List Char → Option (List Char × List Char)
  | [] => none
  | '"' :: rest => some ([], rest)
  | '\\' :: c :: rest =>
    match parseStringBody rest with
    | some p => some (unescapeChar c :: p.1, p.2)
    | none => none
  | c :: rest =>
    match parseStringBody rest with
    | some p => some (c :: p.1, p.2)
    | none => none

/-- Numeric value of a decimal digit character. -/
def digitVal (c : Char) : Nat := c.toNat - 48

/-- Natural number denoted by a list of decimal digit characters. -/
def natFromDigits (ds : List Char) : Nat :=
  ds.foldl (fun a c => a * 10 + digitVal c) 0

/-- Parse a JSON integer literal (optional minus sign, then digits). -/
def parseNumberTok (s : List Char) : Option (JsonVal × List Char) :=
  match s with
  | '-' :: rest =>
    let ds := rest.takeWhile Char.isDigit
    if ds = [] then none
    else some (JsonVal.num (-(natFromDigits ds : Int)), rest.dropWhile Char.isDigit)
  | _ =>
    let ds := s.takeWhile Char.isDigit
    if ds = [] then none
    else some (JsonVal.num (natFromDigits ds), s.dropWhile Char.isDigit)

mutual

/-- Fueled JSON value parser modeling the host `JSON.parse` primitive. -/
def parseValue : Nat → List Char → Option (JsonVal × List Char)
  | 0, _ => none
  | fuel + 1, s =>
    match skipWs s with
    | 'n' :: 'u' :: 'l' :: 'l' :: rest => some (JsonVal.null, rest)
    | 't' :: 'r' :: 'u' :: 'e' :: rest => some (JsonVal.bool true, rest)
    | 'f' :: 'a' :: 'l' :: 's' :: 'e' :: rest => some (JsonVal.bool false, rest)
    | '"' :: rest =>
      match parseStringBody rest with
      | some p => some (JsonVal.str p.1, p.2)
      | none => none
    | '[' :: rest =>
      match skipWs rest with
      | ']' :: rest2 => some (JsonVal.arr [], rest2)
      | _ =>
        match parseItems fuel rest with
        | some p => some (JsonVal.arr p.1, p.2)
        | none => none
    | c :: rest =>
      if c = lbrace then
        match skipWs rest with
        | c2 :: rest2 =>
          if c2 = rbrace then some (JsonVal.obj [], rest2)
          else
            match parseFields fuel rest with
            | some p => some (JsonVal.obj p.1, p.2)
            | none => none
        | [] => none
      else parseNumberTok (c :: rest)
    | [] => none

/-- Fueled parser for the comma-separated items of a JSON array, up to and
including the closing bracket. -/
def parseItems : Nat → List Char → Option (List JsonVal × List Char)
  | 0, _ => none
  | fuel + 1, s =>
    match parseValue fuel s with
    | some (v, r) =>
      match skipWs r with
      | ',' :: r2 =>
        match parseItems fuel r2 with
        | some p => some (v :: p.1, p.2)
        | none => none
      | ']' :: r2 => some ([v], r2)
      | _ => none
    | none => none

/-- Fueled parser for the comma-separated fields of a JSON object, up to and
including the closing brace. -/
def parseFields : Nat → List Char → Option (List (List Char × JsonVal) × List Char)
  | 0, _ => none
  | fuel + 1, s =>
    match skipWs s with
    | '"' :: r =>
      match parseStringBody r with
      | some (key, r1) =>
        match skipWs r1 with
        | ':' :: r2 =>
          match parseValue fuel r2 with
          | some (v, r3) =>
            match skipWs r3 with
            | ',' :: r4 =>
              match parseFields fuel r4 with
              | some p => some ((key, v) :: p.1, p.2)
              | none => none
            | c :: r4 =>
              if c = rbrace then some ([(key, v)], r4) else none
            | [] => none
          | none => none
        | _ => none
      | none => none
    | _ => none

end

/-- Model of the host `JSON.parse`: parse one JSON value and reject trailing
non-whitespace input. -/
def parseJson (s : List Char) : Option JsonVal :=
  match parseValue (2 * s.length + 2) s with
  | some (v, rest) => if skipWs rest = [] then some v else none
  | none => none

/-- Look up a top-level field of a JSON object. -/
def getField (v : JsonVal) (key : List Char) : Option JsonVal :=
  match v with
  | JsonVal.obj fields => (fields.find? (fun p => p.1 == key)).map (fun p => p.2)
  | _ => none

/-- Characters matched by the JavaScript regex class backslash-s (whitespace),
as used by the two fence-stripping regexes in `handleGrade`. -/
def isRegexSpace (c : Char) : Bool :=
  c == ' ' || c == '\t' || c == '\n' || c == '\r' || c == Char.ofNat 11 || c == Char.ofNat 12

/-- The characters of the opening fence marker, three backquotes then json. -/
def fenceOpenChars : List Char := [bq, bq, bq, 'j', 's', 'o', 'n']

/-- The characters of the closing fence marker, three backquotes. -/
def fenceCloseChars : List Char := [bq, bq, bq]

/-- Model of the first replace in `handleGrade`: a leading fence marker and
any whitespace after it are removed; otherwise the text is unchanged. -/
def stripLeadingFence (s : List Char) : List Char :=
  if fenceOpenChars.isPrefixOf s then
    (s.drop fenceOpenChars.length).dropWhile isRegexSpace
  else s

/-- Model of the second replace in `handleGrade`: the regex matches only when
the text ends with the closing marker, and then removes the marker together
with the whitespace run before it.  Implemented on the reversed list. -/
def stripTrailingFence (s : List Char) : List Char :=
  if fenceCloseChars.isSuffixOf s then
    (((s.reverse).drop fenceCloseChars.length).dropWhile isRegexSpace).reverse
  else s

/-- Both replaces of `handleGrade`, applied in source order. -/
def stripFences (s : List Char) : List Char :=
  stripTrailingFence (stripLeadingFence s)

/-- Errors of the shared reply-decoding step of `handleGrade` (the spec's
names `EmptyReply` and `MalformedReply`). -/
inductive GradeError where
  | emptyReply : GradeError
  | malformedReply : GradeError
deriving DecidableEq

/-- Shared reply decoding of `handleGrade` (lines 433-439): an absent or
empty reply is an error; otherwise fences are stripped and the text is fed to
`JSON.parse`, whose failure is the only decoding failure — the result is cast
to `GradingResult` without any field validation. -/
def decodeReply (jsonText : List Char) : Except GradeError JsonVal :=
  if jsonText = [] then Except.error GradeError.emptyReply
  else
    match parseJson (stripFences jsonText) with
    | some v => Except.ok v
    | none => Except.error GradeError.malformedReply

example : parseJson (("\x7b\"a\": 1\x7d").toList) =
    some (JsonVal.obj [(['a'], JsonVal.num 1)]) := rfl

example : parseJson (("\x7b\"a\": [1, -2], \"b\": \"x\"\x7d").toList) =
    some (JsonVal.obj [(['a'], JsonVal.arr [JsonVal.num 1, JsonVal.num (-2)]),
      (['b'], JsonVal.str ['x'])]) := rfl

example : parseJson (("not json").toList) = none := rfl

example : stripFences (("\x60\x60\x60json\n\x7b\x7d\n\x60\x60\x60").toList) =
    [lbrace, rbrace] := rfl

/-- The 64 characters of the standard base64 alphabet, in value order.  This
is the encoding the browser's `FileReader.readAsDataURL` uses for the payload
after the comma. -/
def b64Alphabet : List Char :=
  ['A', 'B', 'C', 'D', 'E', 'F', 'G', 'H', 'I', 'J', 'K', 'L', 'M',
   'N', 'O', 'P', 'Q', 'R', 'S', 'T', 'U', 'V', 'W', 'X', 'Y', 'Z',
   'a', 'b', 'c', 'd', 'e', 'f', 'g', 'h', 'i', 'j', 'k', 'l', 'm',
   'n', 'o', 'p', 'q', 'r', 's', 't', 'u', 'v', 'w', 'x', 'y', 'z',
   '0', '1', '2', '3', '4', '5', '6', '7', '8', '9', '+', '/']

/-- The character encoding one six-bit group. -/
def sextetChar (n : Nat) : Char := b64Alphabet.getD n 'A'

/-- The six-bit value of a base64 alphabet character. -/
def sextetVal (c : Char) : Option Nat :=
  b64Alphabet.findIdx? (fun x => x == c)

/-- Standard base64 encoding of a byte sequence, with `=` padding. -/
def b64Encode : List Nat → List Char
  | [] => []
  | [a] => [sextetChar (a / 4), sextetChar (a % 4 * 16), '=', '=']
  | [a, b] =>
    [sextetChar (a / 4), sextetChar (a % 4 * 16 + b / 16), sextetChar (b % 16 * 4), '=']
  | a :: b :: c :: rest =>
    sextetChar (a / 4) :: sextetChar (a % 4 * 16 + b / 16) ::
    sextetChar (b % 16 * 4 + c / 64) :: sextetChar (c % 64) :: b64Encode rest

/-- Standard base64 decoding, the inverse used to state the byte-identity
round trip of small raster images. -/
def b64Decode : List Char → Option (List Nat)
  | [] => some []
  | c0 :: c1 :: c2 :: c3 :: rest =>
    match sextetVal c0, sextetVal c1 with
    | some s0, some s1 =>
      if c2 = '=' then
        if c3 = '=' ∧ rest = [] then some [s0 * 4 + s1 / 16] else none
      else
        match sextetVal c2 with
        | some s2 =>
          if c3 = '=' then
            if rest = [] then some [s0 * 4 + s1 / 16, s1 % 16 * 16 + s2 / 4] else none
          else
            match sextetVal c3, b64Decode rest with
            | some s3, some bs =>
              some ((s0 * 4 + s1 / 16) :: (s1 % 16 * 16 + s2 / 4) :: (s2 % 4 * 64 + s3) :: bs)
            | _, _ => none
        | none => none
    | _, _ => none
  | _ => none

theorem sextetVal_sextetChar (n : Nat) (h : n < 64) :
    sextetVal (sextetChar n) = some n := by
  have key : ∀ m : Fin 64, sextetVal (sextetChar m.val) = some m.val := by decide
  exact key ⟨n, h⟩

theorem sextetChar_ne_pad (n : Nat) (h : n < 64) : sextetChar n ≠ '=' := by
  have key : ∀ m : Fin 64, sextetChar m.val ≠ '=' := by decide
  exact key ⟨n, h⟩

theorem b64_roundtrip_aux : ∀ (n : Nat) (l : List Nat), l.length ≤ n →
    (∀ x ∈ l, x < 256) → b64Decode (b64Encode l) = some l := by
  intro n
  induction n with
  | zero =>
    intro l hl _
    cases l with
    | nil => rfl
    | cons a t => simp at hl
  | succ n ih =>
    intro l hl hb
    match l with
    | [] => rfl
    | [a] =>
      have ha : a < 256 := hb a (by simp)
      have h0 : sextetVal (sextetChar (a / 4)) = some (a / 4) :=
        sextetVal_sextetChar _ (by omega)
      have h1 : sextetVal (sextetChar (a % 4 * 16)) = some (a % 4 * 16) :=
        sextetVal_sextetChar _ (by omega)
      simp [b64Encode, b64Decode, h0, h1]
      omega
    | [a, b] =>
      have ha : a < 256 := hb a (by simp)
      have hbb : b < 256 := hb b (by simp)
      have h0 : sextetVal (sextetChar (a / 4)) = some (a / 4) :=
        sextetVal_sextetChar _ (by omega)
      have h1 : sextetVal (sextetChar (a % 4 * 16 + b / 16)) = some (a % 4 * 16 + b / 16) :=
        sextetVal_sextetChar _ (by omega)
      have h2 : sextetVal (sextetChar (b % 16 * 4)) = some (b % 16 * 4) :=
        sextetVal_sextetChar _ (by omega)
      have hne2 : sextetChar (b % 16 * 4) ≠ '=' := sextetChar_ne_pad _ (by omega)
      simp [b64Encode, b64Decode, h0, h1, h2, hne2]
      omega
    | a :: b :: c :: rest =>
      have ha : a < 256 := hb a (by simp)
      have hbb : b < 256 := hb b (by simp)
      have hc : c < 256 := hb c (by simp)
      have hrest : ∀ x ∈ rest, x < 256 := fun x hx => hb x (by simp [hx])
      have hlen : rest.length ≤ n := by simp at hl; omega
      have ihr : b64Decode (b64Encode rest) = some rest := ih rest hlen hrest
      have h0 : sextetVal (sextetChar (a / 4)) = some (a / 4) :=
        sextetVal_sextetChar _ (by omega)
      have h1 : sextetVal (sextetChar (a % 4 * 16 + b / 16)) = some (a % 4 * 16 + b / 16) :=
        sextetVal_sextetChar _ (by omega)
      have h2 : sextetVal (sextetChar (b % 16 * 4 + c / 64)) = some (b % 16 * 4 + c / 64) :=
        sextetVal_sextetChar _ (by omega)
      have h3 : sextetVal (sextetChar (c % 64)) = some (c % 64) :=
        sextetVal_sextetChar _ (by omega)
      have hne2 : sextetChar (b % 16 * 4 + c / 64) ≠ '=' := sextetChar_ne_pad _ (by omega)
      have hne3 : sextetChar (c % 64) ≠ '=' := sextetChar_ne_pad _ (by omega)
      simp [b64Encode, b64Decode, h0, h1, h2, h3, hne2, hne3, ihr]
      omega

/-- Base64 decoding inverts base64 encoding on genuine byte sequences. -/
theorem b64_roundtrip (l : List Nat) (hb : ∀ x ∈ l, x < 256) :
    b64Decode (b64Encode l) = some l :=
  b64_roundtrip_aux l.length l le_rfl hb

example : b64Encode [77, 97, 110] = ['T', 'W', 'F', 'u'] := rfl

example : b64Decode (b64Encode [1, 2, 3, 4]) = some [1, 2, 3, 4] := rfl

/-- One unit of transmittable image data, the source's `{ data, mimeType }`
pairs: a base64 payload and a MIME type. -/
structure ImagePart where
  data : List Char
  mimeType : String
deriving DecidableEq

/-- The two model providers appearing in `MODELS`. -/
inductive Provider where
  | google : Provider
  | alibaba : Provider
deriving DecidableEq

/-- A selected input file.  The browser's `File` object exposes name,
declared MIME type and size without reading the content; the content bytes
are what `FileReader` later delivers. -/
structure FileModel where
  name : String
  type : String
  size : Nat
  bytes : List Nat
deriving DecidableEq

/-- The browser and pdf.js primitives the normalizer calls, abstracted: page
count of a parsed PDF document, the base64 JPEG payload of one rendered page
(at the fixed scale 1.5 and quality 0.7 the source hardcodes; the 2d context
of a fresh canvas is always available per the HTML spec, so the source's
`if (context)` guard is always taken), decoded pixel dimensions of a raster
image, and the base64 payload of `canvas.toDataURL` at quality 0.7 after
drawing the image at the given canvas dimensions. -/
structure BrowserEnv where
  pdfNumPages : List Nat → Nat
  renderPage : List Nat → Nat → List Char
  decodeImageDims : List Nat → Nat × Nat
  encodeCanvasJpeg : List Nat → ℚ → ℚ → List Char

/-- The source's `MAX_FILE_SIZE_MB` constant. -/
def MAX_FILE_SIZE_MB : Nat := 10

/-- The source's `MAX_DIMENSION` constant inside `resizeImage`. -/
def MAX_DIMENSION : ℚ := 1536

/-- The dimension computation of `resizeImage` (lines 42-59): proportional
downscaling so that the longer edge does not exceed `MAX_DIMENSION`.
JavaScript number arithmetic on these values is modeled exactly over `ℚ`. -/
def resizeDims (w h : ℚ) : ℚ × ℚ :=
  if h < w then
    if MAX_DIMENSION < w then (MAX_DIMENSION, h * MAX_DIMENSION / w) else (w, h)
  else
    if MAX_DIMENSION < h then (w * MAX_DIMENSION / h, MAX_DIMENSION) else (w, h)

/-- `resizeImage` (lines 35-75): decode the image, compute the target canvas
dimensions, draw and re-encode as JPEG at quality 0.7, and return the base64
payload of the data URL. -/
def resizeImage (env : BrowserEnv) (file : FileModel) : List Char :=
  let dims := env.decodeImageDims file.bytes
  let d := resizeDims (dims.1 : ℚ) (dims.2 : ℚ)
  env.encodeCanvasJpeg file.bytes d.1 d.2

/-- `convertPdfToImages` (lines 78-106): render the first `min(numPages, 5)`
pages, in page order, each to a base64 JPEG part. -/
def convertPdfToImages (env : BrowserEnv) (bytes : List Nat) : List ImagePart :=
  let maxPages := min (env.pdfNumPages bytes) 5
  (List.range maxPages).map
    (fun i => { data := env.renderPage bytes (i + 1), mimeType := "image/jpeg" })

/-- Whether `pat` occurs as a contiguous run inside a character list — an
unanchored JavaScript regex search. -/
def containsPat (pat : List Char) : List Char → Bool
  | [] => pat.isEmpty
  | c :: rest => pat.isPrefixOf (c :: rest) || containsPat pat rest

/-- The test `file.type.match(/image\/(jpeg|png|webp)/)` of
`prepareFileForAI`: an unanchored search for one of the three raster MIME
names. -/
def rasterMatch (t : String) : Bool :=
  containsPat (("image/jpeg").toList) t.toList ||
  containsPat (("image/png").toList) t.toList ||
  containsPat (("image/webp").toList) t.toList

/-- The test `file.name.toLowerCase().endsWith('.heic')`. -/
def heicName (n : String) : Bool :=
  List.isSuffixOf ((".heic").toList) ((n.toList).map Char.toLower)

/-- The test `file.type.startsWith('image/')` of `processFile`. -/
def imageType (t : String) : Bool :=
  List.isPrefixOf (("image/").toList) t.toList

/-- `prepareFileForAI` (lines 196-262), the per-file normalizer.  Strategy 1
rasterizes a PDF when the provider is Alibaba or the file exceeds 3 MB;
strategy 2 passes small (< 2 MB) standard rasters through unmodified and
resizes larger ones; strategy 3 reads anything else raw, substituting the
`image/heic` MIME type for `.heic`-named files.  The source's recovery paths
for pdf.js or canvas exceptions are not modeled because the rendering
primitives of `BrowserEnv` are total. -/
def prepareFileForAI (env : BrowserEnv) (provider : Provider) (file : FileModel) :
    List ImagePart :=
  if file.type = "application/pdf" ∧
      (provider = Provider.alibaba ∨ 3 * 1024 * 1024 < file.size) then
    convertPdfToImages env file.bytes
  else if rasterMatch file.type = true ∧ file.size < 2 * 1024 * 1024 then
    [{ data := b64Encode file.bytes, mimeType := file.type }]
  else if rasterMatch file.type = true then
    [{ data := resizeImage env file, mimeType := "image/jpeg" }]
  else
    [{ data := b64Encode file.bytes,
       mimeType := if heicName file.name then "image/heic" else file.type }]

/-- Outcomes of the `processFile` file-selection validation (lines 142-176),
named after the spec's error taxonomy. -/
inductive ProcessOutcome where
  | accepted : ProcessOutcome
  | unsupportedFormat : ProcessOutcome
  | oversizedInput : ProcessOutcome
deriving DecidableEq

/-- `processFile`: reject unknown declared types, then reject PDF and HEIC
files larger than `MAX_FILE_SIZE_MB`; everything else is accepted. -/
def processFile (file : FileModel) : ProcessOutcome :=
  let isHeic : Bool := heicName file.name
  let isPdf : Bool := file.type == "application/pdf"
  let isStandardImage : Bool := imageType file.type && !isHeic
  let isValidType : Bool := isStandardImage || isPdf || isHeic
  if isValidType = false then ProcessOutcome.unsupportedFormat
  else if (isPdf || isHeic) = true ∧ MAX_FILE_SIZE_MB * 1024 * 1024 < file.size then
    ProcessOutcome.oversizedInput
  else ProcessOutcome.accepted

example : rasterMatch ("image/png") = true := rfl

example : rasterMatch ("application/pdf") = false := rfl

example : heicName ("IMG_001.HEIC") = true := rfl

example : heicName ("scan.jpg") = false := rfl

example : resizeDims 3072 1536 = (1536, 768) := by
  simp [resizeDims, MAX_DIMENSION]
  norm_num

/-- Text-or-file input mode of the student and rubric form sections. -/
inductive Mode where
  | text : Mode
  | file : Mode
deriving DecidableEq

/-- The application state that the grading path reads: input modes, texts,
selected files, question, and the currently selected model. -/
structure AppState where
  provider : Provider
  modelId : String
  studentMode : Mode
  studentText : String
  studentFile : Option FileModel
  question : String
  rubricMode : Mode
  rubricText : String
  rubricFile : Option FileModel

/-- The fixed grading persona, the source's `systemPrompt` template. -/
def systemPromptText : String :=
  "\n# AP FRQ Auto-Grader Persona\n**Role:** Strict, objective AP Exam Reader.\n**Mission:** Grade student responses against a specific Scoring Guideline (Rubric) with zero bias.\n**Operational Rules:**\n1. **Literal Keyword Matching:** Points awarded ONLY if required concepts are explicitly stated.\n2. **Task Verbs:** \"Identify\" needs no explanation. \"Explain\" requires logical linkage.\n3. **Contradiction Penalty:** Correct answer + wrong reasoning = 0 points.\n4. **Binary Scoring:** Unless specified otherwise, score is 0 or 1.\n5. **Evidence:** Cite specific Rubric phrases for every decision.\n**Task:** Evaluate the \"Student Response\" based strictly on the \"Scoring Guidelines\" for the \"Question\".\n"

/-- The source's `userPrompt` template literal, with the three interpolated
slots as arguments. -/
def mkUserPrompt (question rubricContentPrompt studentContentPrompt : String) : String :=
  "\n**Input Data:**\n* **[Question Prompt]:** \"" ++ question ++
  "\"\n* **[Scoring Guidelines]:** \"" ++ rubricContentPrompt ++
  "\"\n* **[Student Response]:** " ++ studentContentPrompt ++
  "\n\n**Output Requirement:**\nOutput strict JSON matching this schema:\n\x7b\n  \"studentName\": \"string\",\n  \"recognizedText\": \"string (transcription)\",\n  \"feedback\": \"string (critical feedback)\",\n  \"totalScore\": number,\n  \"maxScore\": number,\n  \"scoreBreakdown\": [\n    \x7b \"description\": \"string (Analysis)\", \"pointsAwarded\": number, \"maxPoints\": number \x7d\n  ]\n\x7d\n"

/-- The image sequence `getPromptsAndContext` pushes for the student input:
the student file is normalized when the student section is in file mode and
a file is selected, otherwise no images. -/
def studentImagesOf (env : BrowserEnv) (st : AppState) : List ImagePart :=
  match st.studentMode, st.studentFile with
  | Mode.file, some f => prepareFileForAI env st.provider f
  | _, _ => []

/-- The corresponding student text slot of the user prompt. -/
def studentPromptOf (st : AppState) : String :=
  match st.studentMode, st.studentFile with
  | Mode.file, some _ => "(See attached Student Response images)"
  | _, _ => st.studentText

/-- The image sequence `getPromptsAndContext` pushes for the rubric input. -/
def rubricImagesOf (env : BrowserEnv) (st : AppState) : List ImagePart :=
  match st.rubricMode, st.rubricFile with
  | Mode.file, some f => prepareFileForAI env st.provider f
  | _, _ => []

/-- The corresponding rubric text slot of the user prompt. -/
def rubricPromptOf (st : AppState) : String :=
  match st.rubricMode, st.rubricFile with
  | Mode.file, some _ => "Refer to the attached Rubric/Key images."
  | _, _ => st.rubricText

/-- The backend-agnostic logical request assembled by `getPromptsAndContext`
(lines 266-321): system prompt, composed user prompt, and the attached
images — student images first, then rubric images, in normalization order. -/
structure PromptContext where
  systemPrompt : String
  userPrompt : String
  images : List ImagePart

/-- `getPromptsAndContext`. -/
def getPromptsAndContext (env : BrowserEnv) (st : AppState) : PromptContext :=
  { systemPrompt := systemPromptText
  , userPrompt := mkUserPrompt st.question (rubricPromptOf st) (studentPromptOf st)
  , images := studentImagesOf env st ++ rubricImagesOf env st }

/-- One part of a Gemini `generateContent` request: inline image data or
text. -/
inductive GeminiPart where
  | inlineData : List Char → String → GeminiPart
  | text : String → GeminiPart
deriving DecidableEq

/-- The Gemini request assembled by `gradeWithGemini` (lines 323-368): the
inline-data parts followed by one text part, plus the system instruction. -/
structure GeminiRequest where
  modelId : String
  parts : List GeminiPart
  systemInstruction : String

/-- `gradeWithGemini`, up to the network call: the request it submits. -/
def gradeWithGemini (env : BrowserEnv) (st : AppState) : GeminiRequest :=
  let ctx := getPromptsAndContext env st
  { modelId := st.modelId
  , parts :=
      ctx.images.map (fun img => GeminiPart.inlineData img.data img.mimeType) ++
      [GeminiPart.text ctx.userPrompt]
  , systemInstruction := ctx.systemPrompt }

/-- Failures of the Qwen dispatcher before any network call, named after the
spec's taxonomy: `MissingCredential` for an absent API key and
`UnsupportedPayload` for a raw PDF attachment. -/
inductive QwenError where
  | missingCredential : QwenError
  | unsupportedPayload : QwenError
deriving DecidableEq

/-- One segment of the Qwen user message content. -/
inductive QwenSeg where
  | text : String → QwenSeg
  | imageUrl : List Char → QwenSeg
deriving DecidableEq

/-- The Qwen chat-completions request body assembled by `gradeWithQwen`. -/
structure QwenRequest where
  modelId : String
  systemContent : String
  userSegments : List QwenSeg

/-- The `data:<mime>;base64,<data>` URI built for each image attachment. -/
def qwenDataUri (img : ImagePart) : List Char :=
  ("data:").toList ++ img.mimeType.toList ++ (";base64,").toList ++ img.data

/-- The dispatch logic of `gradeWithQwen` (lines 370-412) on an assembled
context, up to the network call: an empty API key fails first; then any
attachment whose MIME type is `application/pdf` fails; otherwise the request
that would be `fetch`ed is built — so an error means no request was ever
constructed and no network call issued. -/
def qwenDispatch (apiKey : String) (modelId : String) (sys user : String)
    (images : List ImagePart) : Except QwenError QwenRequest :=
  if apiKey = "" then Except.error QwenError.missingCredential
  else if (images.find? (fun img => img.mimeType == "application/pdf")).isSome then
    Except.error QwenError.unsupportedPayload
  else
    Except.ok
      { modelId := modelId
      , systemContent := sys
      , userSegments := QwenSeg.text user :: images.map (fun img => QwenSeg.imageUrl (qwenDataUri img)) }

/-- `gradeWithQwen`: assemble the context, then dispatch. -/
def gradeWithQwen (env : BrowserEnv) (st : AppState) (apiKey : String) :
    Except QwenError QwenRequest :=
  let ctx := getPromptsAndContext env st
  qwenDispatch apiKey st.modelId ctx.systemPrompt ctx.userPrompt ctx.images

/-- A concrete browser environment for evaluations: three-page PDFs and
2000 by 1000 pixel rasters. -/
def envA : BrowserEnv :=
  { pdfNumPages := fun _ => 3
  , renderPage := fun _ i => [sextetChar i]
  , decodeImageDims := fun _ => (2000, 1000)
  , encodeCanvasJpeg := fun _ _ _ => ['Q'] }

/-- A concrete small JPEG file. -/
def fileJpegSmall : FileModel :=
  { name := "a.jpg", type := "image/jpeg", size := 100, bytes := [1, 2, 3] }

/-- A concrete large (2 MB) JPEG file. -/
def fileJpegBig : FileModel :=
  { name := "b.jpg", type := "image/jpeg", size := 2 * 1024 * 1024, bytes := [9] }

/-- A concrete oversized (11 MB) JPEG file. -/
def bigJpegFile : FileModel :=
  { name := "big.jpg", type := "image/jpeg", size := 11 * 1024 * 1024, bytes := [] }

/-- A concrete oversized (11 MB) PDF file. -/
def bigPdfFile : FileModel :=
  { name := "doc.pdf", type := "application/pdf", size := 11 * 1024 * 1024, bytes := [] }

/-- C10: for every non-PDF input file — raster of any size, HEIC, or any
other pass-through case — normalization returns exactly one ImagePart; only
PDF inputs can produce any other length. -/
theorem non_pdf_single_part (env : BrowserEnv) (provider : Provider)
    (file : FileModel) (h : file.type ≠ "application/pdf") :
    (prepareFileForAI env provider file).length = 1 := by
  unfold prepareFileForAI
  split_ifs with h1 h2 h3 h4
  · exact absurd h1.1 h
  all_goals rfl

/-- C10 witness: a concrete small JPEG normalizes to one part. -/
theorem non_pdf_single_part_witness :
    (prepareFileForAI envA Provider.google fileJpegSmall).length = 1 :=
  non_pdf_single_part envA Provider.google fileJpegSmall (by decide)

/-- C8: every successful normalization returns between one and five
ImageParts — never an empty sequence — assuming a PDF input parses to at
least one page (a well-formed PDF has at least one page). -/
theorem normalize_nonempty_bounded (env : BrowserEnv) (provider : Provider)
    (file : FileModel)
    (h : file.type = "application/pdf" → 1 ≤ env.pdfNumPages file.bytes) :
    1 ≤ (prepareFileForAI env provider file).length ∧
    (prepareFileForAI env provider file).length ≤ 5 := by
  unfold prepareFileForAI
  split_ifs with h1 h2 h3 h4
  · have hp := h h1.1
    unfold convertPdfToImages
    simp only [List.length_map, List.length_range]
    omega
  all_goals (simp only [List.length_cons, List.length_nil]; omega)

/-- C8 witness: a concrete rasterized PDF yields a sequence of length in
the one-to-five range. -/
theorem normalize_nonempty_bounded_witness :
    1 ≤ (prepareFileForAI envA Provider.google bigPdfFile).length ∧
    (prepareFileForAI envA Provider.google bigPdfFile).length ≤ 5 :=
  normalize_nonempty_bounded envA Provider.google bigPdfFile (fun _ => by decide)

/-- C9 counterexample: an 11 MB standard raster image exceeds the hard
ceiling yet is accepted by `processFile` — the size gate applies only to
PDF and HEIC files, so the claim as stated is false. -/
theorem oversized_raster_accepted_cex :
    10 * 1024 * 1024 < bigJpegFile.size ∧
    processFile bigJpegFile = ProcessOutcome.accepted ∧
    processFile bigJpegFile ≠ ProcessOutcome.oversizedInput := by
  refine ⟨by decide, by decide, by decide⟩

/-- C9 amended: every PDF or HEIC input file larger than the 10 MB ceiling
is rejected as oversized at selection time; standard raster images are not
size-gated by `processFile`. -/
theorem oversized_pdf_heic_rejected (file : FileModel)
    (h : file.type = "application/pdf" ∨ heicName file.name = true)
    (hs : MAX_FILE_SIZE_MB * 1024 * 1024 < file.size) :
    processFile file = ProcessOutcome.oversizedInput := by
  unfold processFile
  rcases h with h | h
  · simp [h, hs]
  · simp [h, hs]

/-- C9 witness: a concrete 11 MB PDF is rejected as oversized. -/
theorem oversized_pdf_heic_rejected_witness :
    processFile bigPdfFile = ProcessOutcome.oversizedInput :=
  oversized_pdf_heic_rejected bigPdfFile (Or.inl (by decide)) (by decide)

/-- C5: a Qwen dispatch holding a credential whose attachment list contains
a raw `application/pdf` part fails with `UnsupportedPayload`; the error is
returned in place of the request body, so no network call is ever built or
issued. -/
theorem qwen_raw_pdf_unsupported (apiKey modelId sys user : String)
    (images : List ImagePart) (hk : apiKey ≠ "")
    (hp : ∃ img ∈ images, img.mimeType = "application/pdf") :
    qwenDispatch apiKey modelId sys user images =
      Except.error QwenError.unsupportedPayload := by
  unfold qwenDispatch
  rw [if_neg hk, if_pos]
  obtain ⟨img, hmem, hmime⟩ := hp
  rw [List.find?_isSome]
  exact ⟨img, hmem, by simp [hmime]⟩

/-- A concrete raw-PDF attachment part. -/
def pdfPart : ImagePart := { data := [], mimeType := "application/pdf" }

/-- C5 witness: a concrete credentialed dispatch with a raw PDF part fails
with `UnsupportedPayload`. -/
theorem qwen_raw_pdf_unsupported_witness :
    qwenDispatch ("sk-test") ("qwen-vl-max") ("s") ("u") [pdfPart] =
      Except.error QwenError.unsupportedPayload :=
  qwen_raw_pdf_unsupported ("sk-test") ("qwen-vl-max") ("s") ("u") [pdfPart]
    (by decide) ⟨pdfPart, by simp, rfl⟩

/-- C3: a standard raster image below the 2 MB threshold normalizes to a
single part carrying the base64 encoding of the original bytes with the
original MIME type, and base64 decoding recovers exactly the input bytes —
a byte-identical round trip. -/
theorem small_raster_byte_identical (env : BrowserEnv) (provider : Provider)
    (file : FileModel) (hr : rasterMatch file.type = true)
    (hs : file.size < 2 * 1024 * 1024) (hb : ∀ x ∈ file.bytes, x < 256) :
    prepareFileForAI env provider file =
      [{ data := b64Encode file.bytes, mimeType := file.type }] ∧
    b64Decode (b64Encode file.bytes) = some file.bytes := by
  have hnp : file.type ≠ "application/pdf" := by
    intro he; rw [he] at hr; exact absurd hr (by decide)
  constructor
  · unfold prepareFileForAI
    rw [if_neg (fun hcon => hnp hcon.1), if_pos ⟨hr, hs⟩]
  · exact b64_roundtrip file.bytes hb

/-- C3 witness: the concrete small JPEG round-trips byte-identically. -/
theorem small_raster_byte_identical_witness :
    prepareFileForAI envA Provider.google fileJpegSmall =
      [{ data := b64Encode fileJpegSmall.bytes, mimeType := fileJpegSmall.type }] ∧
    b64Decode (b64Encode fileJpegSmall.bytes) = some fileJpegSmall.bytes :=
  small_raster_byte_identical envA Provider.google fileJpegSmall
    (by decide) (by decide) (by decide)

/-- Geometry of the `resizeImage` dimension computation: the longer edge of
the output never exceeds `MAX_DIMENSION`, never exceeds the input's longer
edge, and the aspect ratio is preserved exactly (cross-multiplication). -/
theorem resizeDims_spec (w h : ℚ) :
    max (resizeDims w h).1 (resizeDims w h).2 ≤ MAX_DIMENSION ∧
    max (resizeDims w h).1 (resizeDims w h).2 ≤ max w h ∧
    (resizeDims w h).1 * h = w * (resizeDims w h).2 := by
  unfold resizeDims MAX_DIMENSION
  split_ifs with h1 h2 h3
  · have hw : (0 : ℚ) < w := by linarith
    have hw0 : (w : ℚ) ≠ 0 := ne_of_gt hw
    have hdiv : h * 1536 / w ≤ 1536 := by
      rw [div_le_iff₀ hw]
      nlinarith
    refine ⟨max_le le_rfl hdiv, ?_, ?_⟩
    · rw [max_eq_left (le_of_lt h1)]
      exact max_le (le_of_lt h2) (hdiv.trans (le_of_lt h2))
    · field_simp
      ring
  · push_neg at h2
    refine ⟨?_, le_rfl, by ring⟩
    rw [max_eq_left (le_of_lt h1)]
    exact h2
  · have hh : (0 : ℚ) < h := by linarith
    have hh0 : (h : ℚ) ≠ 0 := ne_of_gt hh
    push_neg at h1
    have hdiv : w * 1536 / h ≤ 1536 := by
      rw [div_le_iff₀ hh]
      nlinarith
    refine ⟨max_le hdiv le_rfl, ?_, ?_⟩
    · rw [max_eq_right h1]
      exact max_le (hdiv.trans (le_of_lt h3)) (le_of_lt h3)
    · field_simp
  · push_neg at h1 h3
    exact ⟨max_le (h1.trans h3) h3, le_rfl, by ring⟩

/-- C4: a standard raster image at or above the 2 MB threshold is resized —
the normalized output is the single JPEG re-encoding at the computed canvas
dimensions, whose longer edge is at most 1536 and at most the original
longer edge, with the aspect ratio preserved by proportional scaling. -/
theorem large_raster_resize_bounds (env : BrowserEnv) (provider : Provider)
    (file : FileModel) (w h : Nat) (hr : rasterMatch file.type = true)
    (hs : 2 * 1024 * 1024 ≤ file.size)
    (hd : env.decodeImageDims file.bytes = (w, h)) :
    prepareFileForAI env provider file =
      [{ data := env.encodeCanvasJpeg file.bytes
           (resizeDims (w : ℚ) (h : ℚ)).1 (resizeDims (w : ℚ) (h : ℚ)).2,
         mimeType := "image/jpeg" }] ∧
    max (resizeDims (w : ℚ) (h : ℚ)).1 (resizeDims (w : ℚ) (h : ℚ)).2 ≤ MAX_DIMENSION ∧
    max (resizeDims (w : ℚ) (h : ℚ)).1 (resizeDims (w : ℚ) (h : ℚ)).2 ≤ max (w : ℚ) (h : ℚ) ∧
    (resizeDims (w : ℚ) (h : ℚ)).1 * (h : ℚ) = (w : ℚ) * (resizeDims (w : ℚ) (h : ℚ)).2 := by
  have hnp : file.type ≠ "application/pdf" := by
    intro he; rw [he] at hr; exact absurd hr (by decide)
  obtain ⟨b1, b2, b3⟩ := resizeDims_spec (w : ℚ) (h : ℚ)
  refine ⟨?_, b1, b2, b3⟩
  unfold prepareFileForAI
  rw [if_neg (fun hcon => hnp hcon.1),
      if_neg (fun hcon => absurd hcon.2 (by omega)),
      if_pos hr]
  simp [resizeImage, hd]

/-- C4 witness: the concrete 2 MB, 2000 by 1000 JPEG is resized with the
stated bounds. -/
theorem large_raster_resize_bounds_witness :
    prepareFileForAI envA Provider.google fileJpegBig =
      [{ data := envA.encodeCanvasJpeg fileJpegBig.bytes
           (resizeDims ((2000 : Nat) : ℚ) ((1000 : Nat) : ℚ)).1
           (resizeDims ((2000 : Nat) : ℚ) ((1000 : Nat) : ℚ)).2,
         mimeType := "image/jpeg" }] ∧
    max (resizeDims ((2000 : Nat) : ℚ) ((1000 : Nat) : ℚ)).1
        (resizeDims ((2000 : Nat) : ℚ) ((1000 : Nat) : ℚ)).2 ≤ MAX_DIMENSION ∧
    max (resizeDims ((2000 : Nat) : ℚ) ((1000 : Nat) : ℚ)).1
        (resizeDims ((2000 : Nat) : ℚ) ((1000 : Nat) : ℚ)).2 ≤
      max (((2000 : Nat) : ℚ)) (((1000 : Nat) : ℚ)) ∧
    (resizeDims ((2000 : Nat) : ℚ) ((1000 : Nat) : ℚ)).1 * (((1000 : Nat) : ℚ)) =
      (((2000 : Nat) : ℚ)) * (resizeDims ((2000 : Nat) : ℚ) ((1000 : Nat) : ℚ)).2 :=
  large_raster_resize_bounds envA Provider.google fileJpegBig 2000 1000
    (by decide) (by decide) rfl

/-- A concrete environment whose PDFs have three pages. -/
def envC : BrowserEnv :=
  { pdfNumPages := fun _ => 3
  , renderPage := fun _ _ => []
  , decodeImageDims := fun _ => (0, 0)
  , encodeCanvasJpeg := fun _ _ _ => [] }

/-- A concrete small (1 KB) three-page PDF. -/
def smallPdfFile : FileModel :=
  { name := "small.pdf", type := "application/pdf", size := 1024, bytes := [] }

/-- C2 counterexample: a small three-page PDF on the Google backend is
passed through raw — one part of MIME type `application/pdf` — so its
normalized length is not `min(page count, 5)` and its element is not a
JPEG; the claim quantified over every PDF input is false. -/
theorem pdf_page_count_cex :
    (prepareFileForAI envC Provider.google smallPdfFile).length ≠
      min (envC.pdfNumPages smallPdfFile.bytes) 5 ∧
    ¬ (∀ part ∈ prepareFileForAI envC Provider.google smallPdfFile,
        part.mimeType = "image/jpeg") := by
  refine ⟨by decide, by decide⟩

/-- C2 amended: every PDF input that takes the rasterization branch (Alibaba
backend, or size above 3 MB) normalizes to exactly `min(page count, 5)`
parts, in original page order, each of MIME type `image/jpeg`; a smaller PDF
on the Google backend passes through raw instead. -/
theorem pdf_raster_page_count_order (env : BrowserEnv) (provider : Provider)
    (file : FileModel) (hp : file.type = "application/pdf")
    (hc : provider = Provider.alibaba ∨ 3 * 1024 * 1024 < file.size) :
    (prepareFileForAI env provider file).length =
      min (env.pdfNumPages file.bytes) 5 ∧
    ∀ (i : Nat) (hi : i < (prepareFileForAI env provider file).length),
      (prepareFileForAI env provider file).get ⟨i, hi⟩ =
        { data := env.renderPage file.bytes (i + 1), mimeType := "image/jpeg" } := by
  have hbranch : prepareFileForAI env provider file = convertPdfToImages env file.bytes := by
    unfold prepareFileForAI
    rw [if_pos ⟨hp, hc⟩]
  rw [hbranch]
  constructor
  · simp [convertPdfToImages]
  · intro i hi
    unfold convertPdfToImages at hi ⊢
    simp only [List.get_eq_getElem, List.getElem_map, List.getElem_range]

/-- A concrete environment whose PDFs have six pages. -/
def envB : BrowserEnv :=
  { pdfNumPages := fun _ => 6
  , renderPage := fun _ i => [sextetChar i]
  , decodeImageDims := fun _ => (0, 0)
  , encodeCanvasJpeg := fun _ _ _ => [] }

/-- A concrete six-page, 4 MB PDF. -/
def pdfSixPages : FileModel :=
  { name := "six.pdf", type := "application/pdf", size := 4 * 1024 * 1024, bytes := [] }

/-- C2 witness: the six-page PDF rasterizes to exactly five pages. -/
theorem pdf_raster_page_count_order_witness :
    (prepareFileForAI envB Provider.google pdfSixPages).length =
      min (envB.pdfNumPages pdfSixPages.bytes) 5 ∧
    min (envB.pdfNumPages pdfSixPages.bytes) 5 = 5 :=
  ⟨(pdf_raster_page_count_order envB Provider.google pdfSixPages rfl
      (Or.inr (by decide))).1, by decide⟩

/-- C7: the Gemini request's parts are exactly one inline-data part per
assembled ImagePart — student images first, then rubric images, in
assembly order — followed by exactly one trailing text part carrying the
composed user prompt; with both sections in text mode the parts are a
single text part. -/
theorem gemini_parts_structure (env : BrowserEnv) (st : AppState) :
    (gradeWithGemini env st).parts =
      (studentImagesOf env st).map (fun i => GeminiPart.inlineData i.data i.mimeType) ++
      (rubricImagesOf env st).map (fun i => GeminiPart.inlineData i.data i.mimeType) ++
      [GeminiPart.text (getPromptsAndContext env st).userPrompt] ∧
    (st.studentMode = Mode.text → st.rubricMode = Mode.text →
      (gradeWithGemini env st).parts =
        [GeminiPart.text (getPromptsAndContext env st).userPrompt]) := by
  constructor
  · simp [gradeWithGemini, getPromptsAndContext, List.map_append, List.append_assoc]
  · intro hs hr
    simp [gradeWithGemini, getPromptsAndContext, studentImagesOf, rubricImagesOf, hs, hr]

/-- The end-to-end text-mode state of the spec's scenario: question
"Explain X", rubric text, student text, Google backend. -/
def stTextBoth : AppState :=
  { provider := Provider.google
  , modelId := "gemini-2.5-flash"
  , studentMode := Mode.text
  , studentText := "X is ..."
  , studentFile := none
  , question := "Explain X"
  , rubricMode := Mode.text
  , rubricText := "1 point: defines X"
  , rubricFile := none }

/-- C7 witness: the concrete all-text request has zero image parts and one
text part. -/
theorem gemini_parts_structure_witness :
    (gradeWithGemini envA stTextBoth).parts =
      [GeminiPart.text (getPromptsAndContext envA stTextBoth).userPrompt] :=
  (gemini_parts_structure envA stTextBoth).2 rfl rfl

set_option maxRecDepth 100000

/-- A concrete backend reply missing five of the six required fields,
including `scoreBreakdown`. -/
def replyMissingFields : List Char :=
  ("\x7b\"studentName\": \"Alice\"\x7d").toList

/-- C1 counterexample: the reply missing `scoreBreakdown` (and four further
required fields) decodes successfully — `handleGrade` applies `JSON.parse`
and an unchecked type cast, so no absence of a required field produces
`MalformedReply`. -/
theorem decode_missing_fields_succeeds_cex :
    decodeReply replyMissingFields =
      Except.ok (JsonVal.obj
        [(("studentName").toList, JsonVal.str (("Alice").toList))]) ∧
    decodeReply replyMissingFields ≠ Except.error GradeError.malformedReply := by
  have h1 : decodeReply replyMissingFields =
      Except.ok (JsonVal.obj
        [(("studentName").toList, JsonVal.str (("Alice").toList))]) := rfl
  refine ⟨h1, ?_⟩
  rw [h1]
  simp

/-- A concrete complete reply whose `scoreBreakdown` is the empty array. -/
def replyEmptyBreakdown : List Char :=
  ("\x7b\"studentName\": \"N/A\", \"recognizedText\": \"X is ...\", \"feedback\": \"ok\", \"totalScore\": 1, \"maxScore\": 1, \"scoreBreakdown\": []\x7d").toList

/-- A concrete reply with `scoreBreakdown` present but `feedback` absent. -/
def replyNoFeedback : List Char :=
  ("\x7b\"studentName\": \"N/A\", \"recognizedText\": \"t\", \"totalScore\": 1, \"maxScore\": 1, \"scoreBreakdown\": []\x7d").toList

/-- C1 amended: reply decoding applies `JSON.parse` with no required-field
validation — a reply with `scoreBreakdown: []` succeeds and carries an empty
breakdown, a syntactically valid reply missing a required field also
succeeds rather than failing, and only syntactically invalid JSON yields
`MalformedReply`. -/
theorem decode_no_required_field_validation :
    (∃ v, decodeReply replyEmptyBreakdown = Except.ok v ∧
        getField v (("scoreBreakdown").toList) = some (JsonVal.arr [])) ∧
    (∃ v, decodeReply replyNoFeedback = Except.ok v ∧
        getField v (("feedback").toList) = none) ∧
    decodeReply (("not json").toList) = Except.error GradeError.malformedReply := by
  refine ⟨⟨_, rfl, rfl⟩, ⟨_, rfl, rfl⟩, rfl⟩

/-- A brace-delimited JSON reply body, the bare form of the claim's
curly-brace reply text. -/
def jsonBody (mid : List Char) : List Char := lbrace :: (mid ++ [rbrace])

/-- A reply wrapped in a Markdown display fence: the opening marker, a
newline, the body, a newline, and the closing marker. -/
def fencedReply (body : List Char) : List Char :=
  fenceOpenChars ++ ('\n' :: (body ++ ('\n' :: fenceCloseChars)))

theorem isPrefixOf_append_self (l r : List Char) : l.isPrefixOf (l ++ r) = true := by
  induction l with
  | nil => simp
  | cons a t ih => simp [List.isPrefixOf_cons₂, ih]

theorem dropWhile_nl_stop (c : Char) (hc : isRegexSpace c = false) (t : List Char) :
    List.dropWhile isRegexSpace ('\n' :: (c :: t)) = c :: t := by
  rw [List.dropWhile_cons, if_pos (show isRegexSpace '\n' = true from rfl),
    List.dropWhile_cons, if_neg (show ¬ isRegexSpace c = true by simp [hc])]

/-- C6: a reply wrapped in a leading and trailing Markdown fence decodes to
exactly the same result as the bare brace-delimited JSON text — the fences
are stripped before `JSON.parse`, and stripping leaves the bare text
unchanged. -/
theorem fence_stripping_parse_equivalence (mid : List Char) :
    decodeReply (fencedReply (jsonBody mid)) = decodeReply (jsonBody mid) := by
  have hne_bq_lb : (bq == lbrace) = false := by decide
  have hne_bq_rb : (bq == rbrace) = false := by decide
  have h1 : stripLeadingFence (fencedReply (jsonBody mid)) =
      jsonBody mid ++ ('\n' :: fenceCloseChars) := by
    unfold fencedReply stripLeadingFence
    rw [if_pos (isPrefixOf_append_self fenceOpenChars _), List.drop_left]
    exact dropWhile_nl_stop lbrace (by decide) _
  have hrev : (jsonBody mid ++ ('\n' :: fenceCloseChars)).reverse =
      fenceCloseChars ++ ('\n' :: (rbrace :: (mid.reverse ++ [lbrace]))) := by
    simp [jsonBody, fenceCloseChars]
  have h2 : stripTrailingFence (jsonBody mid ++ ('\n' :: fenceCloseChars)) =
      jsonBody mid := by
    unfold stripTrailingFence
    have hc : fenceCloseChars.isSuffixOf (jsonBody mid ++ ('\n' :: fenceCloseChars)) = true := by
      unfold List.isSuffixOf
      rw [hrev, show fenceCloseChars.reverse = fenceCloseChars from rfl]
      exact isPrefixOf_append_self fenceCloseChars _
    rw [if_pos hc, hrev, List.drop_left, dropWhile_nl_stop rbrace (by decide) _]
    simp [jsonBody]
  have h3 : stripLeadingFence (jsonBody mid) = jsonBody mid := by
    unfold stripLeadingFence
    have hnp : fenceOpenChars.isPrefixOf (jsonBody mid) = false := by
      rw [show fenceOpenChars = bq :: [bq, bq, 'j', 's', 'o', 'n'] from rfl]
      simp [jsonBody, List.isPrefixOf, hne_bq_lb]
    rw [if_neg (by simp [hnp])]
  have h4 : stripTrailingFence (jsonBody mid) = jsonBody mid := by
    unfold stripTrailingFence
    have hrev2 : (jsonBody mid).reverse = rbrace :: (mid.reverse ++ [lbrace]) := by
      simp [jsonBody]
    have hns : fenceCloseChars.isSuffixOf (jsonBody mid) = false := by
      unfold List.isSuffixOf
      rw [hrev2, show fenceCloseChars.reverse = bq :: [bq, bq] from rfl]
      simp [List.isPrefixOf, hne_bq_rb]
    rw [if_neg (by simp [hns])]
  have hstrip1 : stripFences (fencedReply (jsonBody mid)) = jsonBody mid := by
    unfold stripFences
    rw [h1, h2]
  have hstrip2 : stripFences (jsonBody mid) = jsonBody mid := by
    unfold stripFences
    rw [h3, h4]
  have hne1 : fencedReply (jsonBody mid) ≠ [] := by
    simp [fencedReply, fenceOpenChars]
  have hne2 : jsonBody mid ≠ [] := by
    simp [jsonBody]
  unfold decodeReply
  rw [if_neg hne1, if_neg hne2, hstrip1, hstrip2]
